import Mathlib

/-!
Shallow embedding of the command-execution pipeline of `src/shell/shell.c`.

Token sequences are `List String`; `tokens_get_token(tokens, i)` is `l[i]?`
(the C function returns NULL out of range, modelled as `none`).  The OS
surface consulted by the shell (access(2), getenv("PATH"), open(2), fork(2),
waitpid(2), isatty) is modelled as an oracle record `Sys`; file-descriptor
and terminal state owned by the shell process is the explicit state threaded
through `processExternal`, which mirrors one main-loop iteration of the
non-built-in branch (shell.c:262-383).
-/

/-- A token is a redirection operator iff it is literally ">" or "<"
(the two strcmp checks in shell.c:168 and shell.c:340). -/
def isOp (t : String) : Bool := t == ">" || t == "<"

/-- shell.c:164-173 `needs_redirection`: scan every token for a literal
">" or "<". -/
def needs_redirection (tokens : List String) : Bool := tokens.any isOp

/-- The skipping logic of the child's argv-copy loop (shell.c:337-345):
each ">"/"<" token is dropped together with the token right after it;
every other token survives in order. -/
def stripRedirs : List String → List String
  | [] => []
  | [t] => if isOp t then [] else [t]
  | t :: u :: rest =>
      if isOp t then stripRedirs rest
      else t :: stripRedirs (u :: rest)

/-- Direction of a redirection: ">" is output, "<" is input. -/
inductive RedirKind
  | output
  | input
  deriving DecidableEq

/-- Outcome of the redirection block (shell.c:278-301).
`noRedir`: no operator anywhere, block skipped.
`opened k f`: file `f` was opened and dup2-ed onto the kind's stream.
`invalidOp`: token 1 exists but is not ">"/"<" although some token is;
the line is abandoned with "Invalid redirection operator".
`openFailed`: open(2) failed (including a missing filename token, where
open receives NULL and fails); the line is abandoned.
`crash`: token 1 is absent, so strcmp(NULL, ">") dereferences NULL. -/
inductive RedirOutcome
  | noRedir
  | opened (k : RedirKind) (file : String)
  | invalidOp
  | openFailed
  | crash
  deriving DecidableEq

/-- shell.c:278-301: when some token is a redirection operator, the operator
is read from index 1 and the filename from index 2; the file is opened
write/create/truncate for ">" and read-only for "<".  `openOk` is the
oracle for open(2) success. -/
def redirStep (openOk : RedirKind → String → Bool) (tokens : List String) :
    RedirOutcome :=
  if needs_redirection tokens then
    match tokens[1]? with
    | none => .crash
    | some rt =>
      if rt = ">" then
        match tokens[2]? with
        | none => .openFailed
        | some f => if openOk .output f then .opened .output f else .openFailed
      else if rt = "<" then
        match tokens[2]? with
        | none => .openFailed
        | some f => if openOk .input f then .opened .input f else .openFailed
      else .invalidOp
  else .noRedir

/-- shell.c:98-104 `is_full_path`: the command starts with "/", "./" or
"../". -/
def is_full_path (cmd : String) : Bool :=
  match cmd.data with
  | '/' :: _ => true
  | '.' :: '/' :: _ => true
  | '.' :: '.' :: '/' :: _ => true
  | _ => false

/-- strtok(path, ":") semantics (shell.c:128-158): maximal nonempty runs of
non-':' characters, in order; empty fields are skipped. -/
def strtokSplitAux : List Char → List Char → List String
  | [], cur => if cur.isEmpty then [] else [String.mk cur.reverse]
  | c :: rest, cur =>
      if c = ':' then
        if cur.isEmpty then strtokSplitAux rest []
        else String.mk cur.reverse :: strtokSplitAux rest []
      else strtokSplitAux rest (c :: cur)

/-- Split a PATH value the way the strtok loop of `get_full_path` does. -/
def strtokSplit (s : String) : List String := strtokSplitAux s.data []

/-- The while-loop of shell.c:132-159: build `dir ++ "/" ++ cmd` for each
directory in turn and return the first one that `access(try_path, X_OK)`
accepts.  `execOk` is the oracle for access(2). -/
def tryDirs (execOk : String → Bool) (cmd : String) : List String → Option String
  | [] => none
  | dir :: rest =>
      let try_path := dir ++ "/" ++ cmd
      if execOk try_path then some try_path else tryDirs execOk cmd rest

/-- shell.c:107-162 `get_full_path`: read PATH (none models getenv
returning NULL), strtok-split it on ':', and scan the directories in
order. -/
def get_full_path (execOk : String → Bool) (pathVar : Option String)
    (cmd : String) : Option String :=
  match pathVar with
  | none => none
  | some p => tryDirs execOk cmd (strtokSplit p)

/-- The resolution step of the main loop (shell.c:265-269): a literal path
is duplicated unchanged, anything else goes through `get_full_path`. -/
def resolveCmdPath (execOk : String → Bool) (pathVar : Option String)
    (cmd : String) : Option String :=
  if is_full_path cmd then some cmd else get_full_path execOk pathVar cmd

/-- The command strings of `cmd_table` (shell.c:49-54), in table order. -/
def cmdTableCmds : List String := ["?", "exit", "pwd", "cd"]

/-- The scanning loop of `lookup` (shell.c:180-184), carrying the index of
the current entry. -/
def lookupAux : List String → String → Nat → Int
  | [], _, _ => -1
  | c :: rest, cmd, i => if c = cmd then (i : Int) else lookupAux rest cmd (i + 1)

/-- shell.c:178-187 `lookup`: NULL command (a zero-token line) yields -1
without the loop running; otherwise the index of the first matching table
entry, or -1. -/
def lookup : Option String → Int
  | none => -1
  | some cmd => lookupAux cmdTableCmds cmd 0

/-- Index of the first entry equal to `cmd`, the specification the loop is
measured against. -/
def firstMatchIdx (cmd : String) : List String → Option Nat
  | [] => none
  | c :: rest => if c = cmd then some 0 else (firstMatchIdx cmd rest).map (· + 1)

/-- Result of running a built-in: a return code handed back to the main
loop, or termination of the whole shell process with an exit status. -/
inductive BuiltinResult
  | ret (code : Int)
  | exited (status : Nat)
  deriving DecidableEq

/-- shell.c:58-63 `cmd_help`: prints the table and returns 1
unconditionally. -/
def cmd_help (_tokens : List String) : BuiltinResult := .ret 1

/-- shell.c:66-68 `cmd_exit`: exit(0), terminating the shell process. -/
def cmd_exit (_tokens : List String) : BuiltinResult := .exited 0

/-- shell.c:70-81 `cmd_pwd`: 0 when getcwd succeeds (result printed),
1 when it fails; `getcwdResult` is the oracle for getcwd. -/
def cmd_pwd (getcwdResult : Option String) (_tokens : List String) :
    BuiltinResult :=
  match getcwdResult with
  | some _ => .ret 0
  | none => .ret 1

/-- shell.c:84-96 `cmd_cd`: 1 when token 1 is absent, 1 when chdir fails,
0 otherwise; `chdirOk` is the oracle for chdir. -/
def cmd_cd (chdirOk : String → Bool) (tokens : List String) : BuiltinResult :=
  match tokens[1]? with
  | none => .ret 1
  | some dir => if chdirOk dir then .ret 0 else .ret 1

/-- One cell of the child's malloc-ed argv array: an uninitialised slot,
a pointer to a token string, or the NULL pointer. -/
inductive ArgvCell
  | uninit
  | str (s : String)
  | nullp
  deriving DecidableEq

/-- Sequential writes `argv[i++] = token` starting at index `i`
(out-of-range writes are dropped, matching in-bounds C executions). -/
def writeSeq : List ArgvCell → Nat → List String → List ArgvCell
  | a, _, [] => a
  | a, i, s :: rest => writeSeq (a.set i (.str s)) (i + 1) rest

/-- The child's argv construction (shell.c:322-346): allocate
`argv_size + 1` cells where `argv_size` is the token count minus 2 when
any redirection operator is present; write the first token at index 0;
copy the surviving tokens from index 1 on, skipping each operator/follower
pair; finally write NULL at index `argv_size`. -/
def buildArgv (tokens : List String) : List ArgvCell :=
  let n := tokens.length
  let argvSize := if needs_redirection tokens then n - 2 else n
  let a0 := (List.replicate (argvSize + 1) ArgvCell.uninit).set 0
      (match tokens[0]? with | some s => .str s | none => .nullp)
  let a1 := writeSeq a0 1 (stripRedirs (tokens.drop 1))
  a1.set argvSize .nullp

/-- Where one of the shell's own standard streams currently points. -/
inductive FdBinding
  | terminal
  | file (name : String)
  deriving DecidableEq

/-- The shell process's own stdin and stdout bindings. -/
structure ShellFds where
  stdinB : FdBinding
  stdoutB : FdBinding
  deriving DecidableEq

/-- Terminal state: foreground process group and terminal mode. -/
structure TermState where
  fgPgid : Int
  mode : Nat
  deriving DecidableEq

/-- State of the shell process observable across main-loop iterations. -/
structure ShellState where
  fds : ShellFds
  term : TermState
  deriving DecidableEq

/-- OS oracles for one iteration: access(2) results, the PATH value,
open(2) results, the value fork(2) returns, the status waitpid stores,
whether stdin is a tty, and the pgid/terminal mode saved by `init_shell`. -/
structure Sys where
  execOk : String → Bool
  pathVar : Option String
  openOk : RedirKind → String → Bool
  forkResult : Int
  waitStatus : Int
  interactive : Bool
  shellPgid : Int
  savedMode : Nat

/-- How one main-loop iteration ends for the shell process. -/
inductive LineOutcome
  | nextPrompt
  | shellExit (status : Nat)
  | crash
  deriving DecidableEq

/-- Observable result of processing one external-command line. -/
structure LineResult where
  outcome : LineOutcome
  state : ShellState
  forked : Bool
  cmdPath : Option String
  stderrOut : List String
  deriving DecidableEq

/-- The dup2/close effect of shell.c:299-300, applied to whichever process
executes it: rebinding stdout for ">" and stdin for "<". -/
def applyRedir (st : ShellState) (plan : RedirOutcome) : ShellState :=
  match plan with
  | .opened .output f => { st with fds := { st.fds with stdoutB := .file f } }
  | .opened .input f => { st with fds := { st.fds with stdinB := .file f } }
  | _ => st

/-- shell.c:303-383, parent's view: fork; on failure perror("fork failed")
and exit(EXIT_FAILURE); on success assign the child's group, hand the
terminal over when interactive, block in waitpid, then reclaim the
terminal for `shellPgid` and restore the saved mode when interactive. -/
def forkAndWait (sys : Sys) (st : ShellState) (cp : Option String)
    (msgs : List String) : LineResult :=
  if sys.forkResult < 0 then
    { outcome := .shellExit 1, state := st, forked := false, cmdPath := cp,
      stderrOut := msgs ++ ["fork failed"] }
  else
    let t : TermState :=
      if sys.interactive then { fgPgid := sys.shellPgid, mode := sys.savedMode }
      else st.term
    { outcome := .nextPrompt, state := { st with term := t }, forked := true,
      cmdPath := cp, stderrOut := msgs }

/-- The stderr output of the resolution step: get_full_path prints
"PATH not set" when getenv("PATH") is NULL (shell.c:110) and is only
called for a non-literal path. -/
def pathMsgs (sys : Sys) (t0 : String) : List String :=
  if !(is_full_path t0) && sys.pathVar.isNone then ["PATH not set"] else []

/-- shell.c:262-383 with a nonempty token list: resolve the command
(the not-found branch at shell.c:270 tests `cmd`, which is non-NULL here,
so it never fires and nothing aborts on a failed resolution); run the
redirection block in the parent, mutating the parent's own descriptors;
then fork and wait. -/
def processExternalCmd (sys : Sys) (st : ShellState) (t0 : String)
    (rest : List String) : LineResult :=
  match redirStep sys.openOk (t0 :: rest) with
  | .crash =>
      { outcome := .crash, state := st, forked := false,
        cmdPath := resolveCmdPath sys.execOk sys.pathVar t0,
        stderrOut := pathMsgs sys t0 }
  | .invalidOp =>
      { outcome := .nextPrompt, state := st, forked := false,
        cmdPath := resolveCmdPath sys.execOk sys.pathVar t0,
        stderrOut := pathMsgs sys t0 ++ ["Invalid redirection operator"] }
  | .openFailed =>
      { outcome := .nextPrompt, state := st, forked := false,
        cmdPath := resolveCmdPath sys.execOk sys.pathVar t0,
        stderrOut := pathMsgs sys t0 ++ ["open failed"] }
  | .noRedir =>
      forkAndWait sys st (resolveCmdPath sys.execOk sys.pathVar t0)
        (pathMsgs sys t0)
  | .opened k f =>
      forkAndWait sys (applyRedir st (.opened k f))
        (resolveCmdPath sys.execOk sys.pathVar t0) (pathMsgs sys t0)

/-- One non-built-in main-loop iteration.  An empty token list would make
`is_full_path` dereference NULL (shell.c:100), modelled as a crash. -/
def processExternal (sys : Sys) (st : ShellState) :
    List String → LineResult
  | [] =>
      { outcome := .crash, state := st, forked := false, cmdPath := none,
        stderrOut := [] }
  | t0 :: rest => processExternalCmd sys st t0 rest

/-- The redirection block neither aborted the line nor crashed: the
iteration goes on to fork. -/
def redirProceeds : RedirOutcome → Bool
  | .noRedir => true
  | .opened _ _ => true
  | _ => false

/-- Initial shell state: both streams on the terminal, terminal owned by
the shell's group in the saved mode. -/
def stInit : ShellState :=
  { fds := { stdinB := .terminal, stdoutB := .terminal },
    term := { fgPgid := 10, mode := 3 } }

/-- Concrete oracles: `ls` resolvable, every open succeeds, fork succeeds
with child pid 7, interactive session. -/
def sysC1 : Sys :=
  { execOk := fun s => s == "/bin/ls", pathVar := some "/bin",
    openOk := fun _ _ => true, forkResult := 7, waitStatus := 0,
    interactive := true, shellPgid := 10, savedMode := 3 }

/-- Concrete oracles identical to `sysC1` except fork fails. -/
def sysC2 : Sys :=
  { execOk := fun s => s == "/bin/ls", pathVar := some "/bin",
    openOk := fun _ _ => true, forkResult := -1, waitStatus := 0,
    interactive := true, shellPgid := 10, savedMode := 3 }

/-- Concrete oracles where no candidate path is executable, so PATH
resolution fails; fork succeeds with child pid 9. -/
def sysC3 : Sys :=
  { execOk := fun _ => false, pathVar := some "/usr/bin",
    openOk := fun _ _ => true, forkResult := 9, waitStatus := 0,
    interactive := false, shellPgid := 10, savedMode := 3 }

theorem any_isOp_false : ∀ {l : List String}, (∀ x ∈ l, isOp x = false) → l.any isOp = false
  | [], _ => rfl
  | x :: rest, h => by
      rw [List.any_cons, h x (by simp), any_isOp_false (fun y hy => h y (by simp [hy]))]
      rfl

theorem any_isOp_true (op : String) {l : List String} (h : op ∈ l)
    (hop : isOp op = true) : l.any isOp = true :=
  List.any_eq_true.mpr ⟨op, h, hop⟩

theorem stripRedirs_clean : ∀ {l : List String}, (∀ x ∈ l, isOp x = false) → stripRedirs l = l
  | [], _ => rfl
  | [t], h => by rw [stripRedirs, if_neg (by simp [h t (by simp)])]
  | t :: u :: rest, h => by
      rw [stripRedirs, if_neg (by simp [h t (by simp)]),
        stripRedirs_clean (fun y hy => h y (by simp [hy]))]

theorem stripRedirs_pair {pre : List String} {op : String} (f : String) (post : List String)
    (hpre : ∀ x ∈ pre, isOp x = false) (hop : isOp op = true) :
    stripRedirs (pre ++ op :: f :: post) = pre ++ stripRedirs post := by
  induction pre with
  | nil => simp only [List.nil_append, stripRedirs, if_pos hop]
  | cons x rest ih =>
      have hx : isOp x = false := hpre x (by simp)
      have htl : stripRedirs (rest ++ op :: f :: post) = rest ++ stripRedirs post :=
        ih (fun y hy => hpre y (by simp [hy]))
      cases rest with
      | nil =>
          simp only [List.nil_append] at htl
          rw [List.cons_append, List.nil_append, stripRedirs, if_neg (by simp [hx]), htl]
          rfl
      | cons z zs =>
          rw [List.cons_append, List.cons_append, stripRedirs, if_neg (by simp [hx])]
          rw [← List.cons_append, htl]
          rfl

theorem writeSeq_cons : ∀ (ss : List String) (a : List ArgvCell) (x : ArgvCell) (i : Nat),
    writeSeq (x :: a) (i + 1) ss = x :: writeSeq a i ss
  | [], _, _, _ => rfl
  | s :: ss, a, x, i => by
      show writeSeq ((x :: a).set (i + 1) (.str s)) (i + 1 + 1) ss =
        x :: writeSeq (a.set i (.str s)) (i + 1) ss
      rw [List.set_cons_succ]
      exact writeSeq_cons ss (a.set i (.str s)) x (i + 1)

theorem writeSeq_replicate : ∀ (ss : List String) (m : Nat), ss.length ≤ m →
    writeSeq (List.replicate m ArgvCell.uninit) 0 ss =
      ss.map ArgvCell.str ++ List.replicate (m - ss.length) ArgvCell.uninit
  | [], m, _ => by simp [writeSeq]
  | s :: ss, 0, h => by simp at h
  | s :: ss, m + 1, h => by
      show writeSeq ((List.replicate (m + 1) ArgvCell.uninit).set 0 (.str s)) 1 ss = _
      rw [List.replicate_succ, List.set_cons_zero,
        show (1 : Nat) = 0 + 1 from rfl, writeSeq_cons,
        writeSeq_replicate ss m (by simpa using h)]
      simp [List.length_cons, Nat.succ_sub_succ]

theorem set_last : ∀ (pre : List ArgvCell) (x c : ArgvCell),
    (pre ++ [x]).set pre.length c = pre ++ [c]
  | [], _, _ => rfl
  | p :: pre, x, c => by
      rw [List.cons_append, List.length_cons, List.set_cons_succ, set_last pre x c]
      rfl

theorem writeSeq_cons_one (ss : List String) (a : List ArgvCell) (x : ArgvCell) :
    writeSeq (x :: a) 1 ss = x :: writeSeq a 0 ss :=
  writeSeq_cons ss a x 0

theorem buildArgv_cons (t0 : String) (rest : List String)
    (hsize : (if needs_redirection (t0 :: rest) = true
        then rest.length + 1 - 2 else rest.length + 1) =
      (stripRedirs rest).length + 1) :
    buildArgv (t0 :: rest) =
      .str t0 :: ((stripRedirs rest).map ArgvCell.str ++ [.nullp]) := by
  unfold buildArgv
  simp only [List.length_cons, List.getElem?_cons_zero, List.drop_succ_cons,
    List.drop_zero]
  rw [hsize, List.replicate_succ, List.set_cons_zero, writeSeq_cons_one,
    writeSeq_replicate _ _ (by omega),
    show (stripRedirs rest).length + 1 - (stripRedirs rest).length = 1 from by omega,
    List.replicate_one]
  rw [show ArgvCell.str t0 :: ((stripRedirs rest).map ArgvCell.str ++ [ArgvCell.uninit]) =
    (ArgvCell.str t0 :: (stripRedirs rest).map ArgvCell.str) ++ [ArgvCell.uninit] from by simp]
  rw [show (stripRedirs rest).length + 1 =
    (ArgvCell.str t0 :: (stripRedirs rest).map ArgvCell.str).length from by simp, set_last,
    List.cons_append]

theorem buildArgv_noOp (t0 : String) (rest : List String)
    (h0 : isOp t0 = false) (h : ∀ x ∈ rest, isOp x = false) :
    buildArgv (t0 :: rest) = .str t0 :: (rest.map ArgvCell.str ++ [.nullp]) := by
  have hneeds : needs_redirection (t0 :: rest) = false := by
    rw [needs_redirection, List.any_cons, h0, any_isOp_false h]; rfl
  have hstrip : stripRedirs rest = rest := stripRedirs_clean h
  rw [buildArgv_cons t0 rest (by rw [hneeds, hstrip]; simp), hstrip]

theorem buildArgv_onePair (t0 op f : String) (pre post : List String)
    (hop : isOp op = true) (hpre : ∀ x ∈ pre, isOp x = false)
    (hpost : ∀ x ∈ post, isOp x = false) :
    buildArgv (t0 :: (pre ++ op :: f :: post)) =
      .str t0 :: ((pre ++ post).map ArgvCell.str ++ [.nullp]) := by
  have hneeds : needs_redirection (t0 :: (pre ++ op :: f :: post)) = true :=
    any_isOp_true op (by simp) hop
  have hstrip : stripRedirs (pre ++ op :: f :: post) = pre ++ post := by
    rw [stripRedirs_pair f post hpre hop, stripRedirs_clean hpost]
  rw [buildArgv_cons t0 _ (by rw [hneeds, hstrip]; simp; omega), hstrip]

theorem lookupAux_eq (cmd : String) : ∀ (l : List String) (i : Nat),
    lookupAux l cmd i =
      (match firstMatchIdx cmd l with
       | some j => ((i + j : Nat) : Int)
       | none => -1)
  | [], i => rfl
  | c :: rest, i => by
      by_cases h : c = cmd
      · simp [lookupAux, firstMatchIdx, h]
      · rw [lookupAux, if_neg h, lookupAux_eq cmd rest (i + 1)]
        rw [firstMatchIdx, if_neg h]
        cases hf : firstMatchIdx cmd rest with
        | none => rfl
        | some j =>
            simp only [Option.map_some']
            norm_cast
            omega

theorem tryDirs_eq_find (execOk : String → Bool) (cmd : String) :
    ∀ l : List String, tryDirs execOk cmd l =
      (l.find? fun d => execOk (d ++ "/" ++ cmd)).map fun d => d ++ "/" ++ cmd
  | [] => rfl
  | d :: rest => by
      cases h : execOk (d ++ "/" ++ cmd) with
      | true =>
          rw [tryDirs]
          simp [List.find?_cons, h]
      | false =>
          rw [tryDirs]
          simp [List.find?_cons, h, tryDirs_eq_find execOk cmd rest]

theorem forkAndWait_fail (sys : Sys) (st : ShellState) (cp : Option String)
    (msgs : List String) (h : sys.forkResult < 0) :
    forkAndWait sys st cp msgs =
      { outcome := .shellExit 1, state := st, forked := false, cmdPath := cp,
        stderrOut := msgs ++ ["fork failed"] } := by
  rw [forkAndWait, if_pos h]

theorem forkAndWait_ok (sys : Sys) (st : ShellState) (cp : Option String)
    (msgs : List String) (h : ¬ sys.forkResult < 0) :
    forkAndWait sys st cp msgs =
      { outcome := .nextPrompt,
        state := { st with term := if sys.interactive
          then { fgPgid := sys.shellPgid, mode := sys.savedMode } else st.term },
        forked := true, cmdPath := cp, stderrOut := msgs } := by
  rw [forkAndWait, if_neg h]

theorem processExternal_noRedir (sys : Sys) (st : ShellState) (t0 : String)
    (rest : List String) (h : redirStep sys.openOk (t0 :: rest) = .noRedir) :
    processExternal sys st (t0 :: rest) =
      forkAndWait sys st (resolveCmdPath sys.execOk sys.pathVar t0)
        (pathMsgs sys t0) := by
  show processExternalCmd sys st t0 rest = _
  rw [processExternalCmd, h]

theorem processExternal_opened (sys : Sys) (st : ShellState) (t0 : String)
    (rest : List String) (k : RedirKind) (f : String)
    (h : redirStep sys.openOk (t0 :: rest) = .opened k f) :
    processExternal sys st (t0 :: rest) =
      forkAndWait sys (applyRedir st (.opened k f))
        (resolveCmdPath sys.execOk sys.pathVar t0) (pathMsgs sys t0) := by
  show processExternalCmd sys st t0 rest = _
  rw [processExternalCmd, h]

/-- Claim C2 (amended): on every input line on which fork fails, the shell
writes "fork failed" to stderr and terminates the whole shell process with
exit status 1; it does not continue with subsequent lines. -/
theorem shell_C2_amended (sys : Sys) (st : ShellState) (t0 : String)
    (rest : List String) (hfork : sys.forkResult < 0)
    (hred : redirProceeds (redirStep sys.openOk (t0 :: rest)) = true) :
    (processExternal sys st (t0 :: rest)).outcome = .shellExit 1 ∧
    "fork failed" ∈ (processExternal sys st (t0 :: rest)).stderrOut := by
  cases h : redirStep sys.openOk (t0 :: rest) with
  | invalidOp => rw [h] at hred; simp [redirProceeds] at hred
  | openFailed => rw [h] at hred; simp [redirProceeds] at hred
  | crash => rw [h] at hred; simp [redirProceeds] at hred
  | noRedir =>
      rw [processExternal_noRedir sys st t0 rest h, forkAndWait_fail _ _ _ _ hfork]
      simp
  | opened k f =>
      rw [processExternal_opened sys st t0 rest k f h, forkAndWait_fail _ _ _ _ hfork]
      simp

/-- Claim C4: in interactive mode, on every path on which the blocking
wait returns (fork succeeded, redirection block did not abandon the line),
and for every wait status, the parent ends the iteration with terminal
foreground control on the shell's process group and the terminal mode
saved at startup (shell.c:376-382). -/
theorem shell_C4_reclaim (sys : Sys) (st : ShellState) (t0 : String)
    (rest : List String) (hfork : 0 ≤ sys.forkResult)
    (hint : sys.interactive = true)
    (hred : redirProceeds (redirStep sys.openOk (t0 :: rest)) = true) :
    (processExternal sys st (t0 :: rest)).state.term =
      { fgPgid := sys.shellPgid, mode := sys.savedMode } ∧
    (processExternal sys st (t0 :: rest)).outcome = .nextPrompt := by
  have hnot : ¬ sys.forkResult < 0 := by omega
  cases h : redirStep sys.openOk (t0 :: rest) with
  | invalidOp => rw [h] at hred; simp [redirProceeds] at hred
  | openFailed => rw [h] at hred; simp [redirProceeds] at hred
  | crash => rw [h] at hred; simp [redirProceeds] at hred
  | noRedir =>
      rw [processExternal_noRedir sys st t0 rest h, forkAndWait_ok _ _ _ _ hnot]
      simp [hint]
  | opened k f =>
      rw [processExternal_opened sys st t0 rest k f h, forkAndWait_ok _ _ _ _ hnot]
      simp [hint]

/-- Claim C5 (amended): the scan detects a literal ">" or "<" at any
position, and the child's argv construction drops each operator with the
token after it, keeping the rest in order; but the open step honours only
an operator at token index 1 with the filename at index 2: with ">" at
index 1 the index-2 file is opened for output, with "<" for input, and
when token 1 is not an operator the line is abandoned with an
invalid-operator error. -/
theorem shell_C5_amended :
    (∀ (ts : List String) (op : String), op ∈ ts → isOp op = true →
        needs_redirection ts = true) ∧
    (∀ (openOk : RedirKind → String → Bool) (t0 f : String) (rest : List String),
        openOk .output f = true →
        redirStep openOk (t0 :: ">" :: f :: rest) = .opened .output f) ∧
    (∀ (openOk : RedirKind → String → Bool) (t0 f : String) (rest : List String),
        openOk .input f = true →
        redirStep openOk (t0 :: "<" :: f :: rest) = .opened .input f) ∧
    (∀ (openOk : RedirKind → String → Bool) (ts : List String) (r : String),
        needs_redirection ts = true → ts[1]? = some r → isOp r = false →
        redirStep openOk ts = .invalidOp) ∧
    (∀ (op f : String) (pre post : List String), isOp op = true →
        (∀ x ∈ pre, isOp x = false) →
        stripRedirs (pre ++ op :: f :: post) = pre ++ stripRedirs post) := by
  refine ⟨fun ts op hm hop => any_isOp_true op hm hop, ?_, ?_, ?_,
    fun op f pre post hop hpre => stripRedirs_pair f post hpre hop⟩
  · intro openOk t0 f rest hopen
    have hn : needs_redirection (t0 :: ">" :: f :: rest) = true :=
      any_isOp_true ">" (by simp) (by rfl)
    unfold redirStep
    rw [hn]
    simp [hopen]
  · intro openOk t0 f rest hopen
    have hn : needs_redirection (t0 :: "<" :: f :: rest) = true :=
      any_isOp_true "<" (by simp) (by rfl)
    unfold redirStep
    rw [hn]
    simp [hopen]
  · intro openOk ts r h1 h2 h3
    simp only [isOp, Bool.or_eq_false_iff, beq_eq_false_iff_ne, ne_eq] at h3
    unfold redirStep
    rw [h1, h2]
    simp [h3.1, h3.2]

/-- Claim C1: the claim says the RedirectionPlan is applied only in the
child after fork, leaving the shell process's own stdin/stdout unchanged
after the line.  The code instead runs open/dup2/close in the parent
before fork (shell.c:278-301): on the line `ls > out` the iteration
completes normally, yet the shell's own stdout is left bound to the file
"out", having started on the terminal. -/
theorem shell_C1_parent_redirect :
    (processExternal sysC1 stInit ["ls", ">", "out"]).outcome = .nextPrompt ∧
    (processExternal sysC1 stInit ["ls", ">", "out"]).state.fds.stdoutB =
      .file "out" ∧
    stInit.fds.stdoutB = .terminal := by
  refine ⟨rfl, rfl, rfl⟩

/-- Claim C2 counterexample: with fork returning -1 on the line `ls`, the
shell process terminates with status 1 (shell.c:353-356 calls
exit(EXIT_FAILURE) in the parent); the iteration does not continue to the
next prompt as the claim states. -/
theorem shell_C2_counterexample :
    (processExternal sysC2 stInit ["ls"]).outcome = .shellExit 1 ∧
    (processExternal sysC2 stInit ["ls"]).outcome ≠ .nextPrompt := by
  refine ⟨rfl, by decide⟩

/-- Witness for the amended claim C2 at the concrete line `ls` with
fork returning -1. -/
theorem shell_C2_amended_witness :
    sysC2.forkResult < 0 ∧
    redirProceeds (redirStep sysC2.openOk ("ls" :: [])) = true ∧
    ((processExternal sysC2 stInit ("ls" :: [])).outcome = .shellExit 1 ∧
     "fork failed" ∈ (processExternal sysC2 stInit ("ls" :: [])).stderrOut) :=
  ⟨by decide, by decide, shell_C2_amended sysC2 stInit "ls" [] (by decide) (by decide)⟩

/-- Claim C3: the claim says an unresolvable command is reported as
not-found on stderr with no fork.  Because shell.c:270 tests `cmd` (the
non-NULL first token) instead of `cmd_path`, resolution failure on the
line `nosuchcmd` (no PATH directory matches) prints nothing, and the
shell still forks, with a NULL exec path. -/
theorem shell_C3_forks_without_report :
    (processExternal sysC3 stInit ["nosuchcmd"]).cmdPath = none ∧
    (processExternal sysC3 stInit ["nosuchcmd"]).forked = true ∧
    (processExternal sysC3 stInit ["nosuchcmd"]).stderrOut = [] := by
  refine ⟨rfl, rfl, rfl⟩

/-- Witness for claim C4 at the concrete line `ls` under `sysC1`. -/
theorem shell_C4_reclaim_witness :
    (0 : Int) ≤ sysC1.forkResult ∧ sysC1.interactive = true ∧
    redirProceeds (redirStep sysC1.openOk ("ls" :: [])) = true ∧
    ((processExternal sysC1 stInit ("ls" :: [])).state.term =
       { fgPgid := sysC1.shellPgid, mode := sysC1.savedMode } ∧
     (processExternal sysC1 stInit ("ls" :: [])).outcome = .nextPrompt) :=
  ⟨by decide, rfl, by decide,
    shell_C4_reclaim sysC1 stInit "ls" [] (by decide) rfl (by decide)⟩

/-- Claim C5 counterexample: on `echo a > f` the scan does find the ">"
at position 2, but the open step reads the operator from index 1,
so the line is rejected as an invalid redirection (shell.c:280-290) and
the file "f" is never opened, even with open always succeeding. -/
theorem shell_C5_counterexample :
    needs_redirection ["echo", "a", ">", "f"] = true ∧
    redirStep (fun _ _ => true) ["echo", "a", ">", "f"] = .invalidOp ∧
    redirStep (fun _ _ => true) ["echo", "a", ">", "f"] ≠ .opened .output "f" := by
  refine ⟨rfl, rfl, by decide⟩

/-- Witness for the amended claim C5: `ls > out` opens "out" for
output. -/
theorem shell_C5_amended_witness :
    (fun (_ : RedirKind) (_ : String) => true) .output "out" = true ∧
    redirStep (fun _ _ => true) ("ls" :: ">" :: "out" :: []) =
      .opened .output "out" :=
  ⟨rfl, shell_C5_amended.2.1 (fun _ _ => true) "ls" "out" [] rfl⟩

/-- Claim C6: for a command name that is not a literal path, resolution
splits PATH on ':' (strtok semantics: empty entries dropped) into
directories in left-to-right order and returns `directory ++ "/" ++ name`
for the first directory whose candidate has execute permission — the
first match wins regardless of later matches, as the `find?` form
states. -/
theorem shell_C6_first_match (execOk : String → Bool) (p cmd : String)
    (h : is_full_path cmd = false) :
    resolveCmdPath execOk (some p) cmd =
      ((strtokSplit p).find? fun d => execOk (d ++ "/" ++ cmd)).map
        fun d => d ++ "/" ++ cmd := by
  rw [resolveCmdPath, if_neg (by simp [h]), get_full_path, tryDirs_eq_find]

/-- Witness for claim C6: with both /a/ls and /b/ls executable under
PATH=/a:/b, resolution returns /a/ls, the earlier match. -/
theorem shell_C6_first_match_witness :
    is_full_path "ls" = false ∧
    resolveCmdPath (fun s => s == "/a/ls" || s == "/b/ls") (some "/a:/b") "ls" =
      some "/a/ls" := by
  refine ⟨by decide, ?_⟩
  rw [shell_C6_first_match (fun s => s == "/a/ls" || s == "/b/ls") "/a:/b" "ls"
    (by decide)]
  rfl

/-- Claim C7: a command token beginning with "/", "./" or "../" is
returned unchanged by the resolution step, for every access(2) oracle and
every PATH value — no existence or permission check is consulted. -/
theorem shell_C7_literal_path (execOk : String → Bool) (pathVar : Option String)
    (cmd : String) (h : is_full_path cmd = true) :
    resolveCmdPath execOk pathVar cmd = some cmd := by
  rw [resolveCmdPath, if_pos h]

/-- Witness for claim C7: "./a.out" is returned unchanged even when no
file is executable and PATH is unset. -/
theorem shell_C7_literal_path_witness :
    is_full_path "./a.out" = true ∧
    resolveCmdPath (fun _ => false) none "./a.out" = some "./a.out" :=
  ⟨by decide, shell_C7_literal_path (fun _ => false) none "./a.out" (by decide)⟩

/-- Claim C8 counterexample: `cmd_help` has no failure path, yet returns
1 (shell.c:62), not the 0 the claim requires of a successful built-in. -/
theorem shell_C8_counterexample :
    cmd_help ["?"] = .ret 1 ∧ cmd_help ["?"] ≠ .ret 0 := by
  refine ⟨rfl, by decide⟩

/-- Claim C8 (amended): `pwd` and `cd` return 0 exactly on success and 1
exactly on a locally detected error (missing cd argument, failed getcwd or
chdir); the `?` help built-in returns 1 unconditionally even though it
cannot fail; `exit` terminates the whole shell process with status 0. -/
theorem shell_C8_amended :
    (∀ tokens : List String, cmd_help tokens = .ret 1) ∧
    (∀ tokens : List String, cmd_exit tokens = .exited 0) ∧
    (∀ (g : Option String) (tokens : List String),
        (cmd_pwd g tokens = .ret 0 ↔ g ≠ none) ∧
        (cmd_pwd g tokens = .ret 1 ↔ g = none)) ∧
    (∀ (chdirOk : String → Bool) (tokens : List String),
        (cmd_cd chdirOk tokens = .ret 0 ↔
          ∃ d, tokens[1]? = some d ∧ chdirOk d = true) ∧
        (cmd_cd chdirOk tokens = .ret 1 ↔
          tokens[1]? = none ∨ ∃ d, tokens[1]? = some d ∧ chdirOk d = false)) := by
  refine ⟨fun _ => rfl, fun _ => rfl, ?_, ?_⟩
  · intro g tokens
    cases g <;> simp [cmd_pwd]
  · intro chdirOk tokens
    cases h : tokens[1]? with
    | none => simp [cmd_cd, h]
    | some d =>
        cases hc : chdirOk d <;> simp [cmd_cd, h, hc]

/-- Claim C9 counterexample: on the token sequence a > b < c the
argv-size accounting (token count minus 2, shell.c:323) assumes a single
operator pair, but the copy loop strips both pairs, leaving uninitialised
cells between argv[0] and the NULL written at index 3 — the constructed
array is not the stripped token list followed by NULL. -/
theorem shell_C9_counterexample :
    buildArgv ["a", ">", "b", "<", "c"] =
      [.str "a", .uninit, .uninit, .nullp] ∧
    ArgvCell.uninit ∈ buildArgv ["a", ">", "b", "<", "c"] := by
  refine ⟨rfl, by decide⟩

/-- Claim C9 (amended): when the sequence after the command name contains
no redirection operator, or exactly one operator followed by a filename
token (and no other operator), the constructed argv is the original first
token — the bare command name, not the resolved path, which `buildArgv`
never consults — followed by the surviving tokens in order and a
terminating NULL.  With two or more operator pairs uninitialised cells
remain (see the counterexample). -/
theorem shell_C9_amended :
    (∀ (t0 : String) (rest : List String), isOp t0 = false →
        (∀ x ∈ rest, isOp x = false) →
        buildArgv (t0 :: rest) = .str t0 :: (rest.map ArgvCell.str ++ [.nullp])) ∧
    (∀ (t0 op f : String) (pre post : List String), isOp op = true →
        (∀ x ∈ pre, isOp x = false) → (∀ x ∈ post, isOp x = false) →
        buildArgv (t0 :: (pre ++ op :: f :: post)) =
          .str t0 :: ((pre ++ post).map ArgvCell.str ++ [.nullp])) :=
  ⟨buildArgv_noOp, buildArgv_onePair⟩

/-- Witness for the amended claim C9 at the line `cat < in.txt`. -/
theorem shell_C9_amended_witness :
    isOp "<" = true ∧
    buildArgv ["cat", "<", "in.txt"] = [ArgvCell.str "cat", ArgvCell.nullp] := by
  refine ⟨by decide, ?_⟩
  have h := shell_C9_amended.2 "cat" "<" "in.txt" [] [] (by decide)
    (by intro x hx; cases hx) (by intro x hx; cases hx)
  simpa using h

/-- Claim C10: `lookup` is total on its option-typed input: a NULL
command name yields -1 with the scanning loop never running, and a
non-NULL name yields the index of the first `cmd_table` entry whose
command string is equal, or -1 when none is. -/
theorem shell_C10_lookup_total :
    lookup none = -1 ∧
    ∀ cmd : String, lookup (some cmd) =
      (match firstMatchIdx cmd cmdTableCmds with
       | some i => (i : Int)
       | none => -1) := by
  refine ⟨rfl, fun cmd => ?_⟩
  show lookupAux cmdTableCmds cmd 0 = _
  rw [lookupAux_eq cmd cmdTableCmds 0]
  cases hf : firstMatchIdx cmd cmdTableCmds with
  | none => rfl
  | some j => simp
